import Mathlib

/-!
Verification development for the k-space path module (`kspace.py`) of pyMPB.

The module normalizes user-supplied point lists into 3-component tuples,
reconciles an optional label list, optionally downgrades a uniform-interpolation
request when the target tool does not support it, and renders the result as a
textual scripting expression.

Embedding notes:
* A Python value supplied as a point item is either a number (no `len`, so the
  `TypeError` branch fires), a string (has `len` but also `isalnum`, so it is
  forced to effective length 0), or a sequence of values.  This is captured by
  the inductive `Val`.  Numbers are modelled as exact rationals.
* The constructor `KSpace.init` returns, besides the object, the list of
  warning messages emitted through the `log` collaborator and the final state
  of the caller's `point_labels` list (the constructor mutates the caller's
  list in place via `extend` in one case).
* The `defaults` collaborator is external configuration: the capability flag
  `defaults.newmpb` is a parameter of the constructor, and the two configured
  interpolation function names are parameters of the renderer, as is the host
  language's string conversion of component values (`fmt`).
* `kwargs` (`self.__dict__.update(kwargs)`) is modelled as an association list
  of extra named numeric attributes.
-/

namespace PyMPB

/-- A Python value that can appear in a `points_list` or as a component of a
stored point: a number (no `len`), a string (`len` forced to `0` by the
`isalnum` check), or a sequence of values. -/
inductive Val where
  | num (q : ℚ)
  | str (s : String)
  | seq (elems : List Val)
  deriving Repr, Inhabited

/-- A stored point: always a 3-component tuple after normalization. -/
abbrev Point3 := Val × Val × Val

/-- Warning text for an over-length point (source lines 84–86). -/
def truncationWarning : String :=
  "KSpace: a point has been supplied with length > 3. I will only use the first 3 entries."

/-- Warning text for the uniform-interpolation fallback (source lines 99–101). -/
def uniformFallbackWarning : String :=
  "Requested kinterpolate_uniform function in KSpace, but this is only available starting from MPB v.1.5. Will fall back to simple interpolate function."

/-- Normalization of a single item of `points_list` (`KSpace.__init__`,
source lines 62–86).  The effective length of a number or string is 0; for a
sequence it is its element count.  Returns the stored 3-tuple together with
whether the over-length warning fires for this item.  Note the Python code
stores the item itself as first component in the length-0 case, which for an
empty sequence stores that empty sequence. -/
def normalizeItem : Val → Point3 × Bool
  | .num q => ((.num q, .num 0, .num 0), false)
  | .str s => ((.str s, .num 0, .num 0), false)
  | .seq [] => ((.seq [], .num 0, .num 0), false)
  | .seq [a] => ((a, .num 0, .num 0), false)
  | .seq [a, b] => ((a, b, .num 0), false)
  | .seq [a, b, c] => ((a, b, c), false)
  | .seq (a :: b :: c :: _ :: _) => ((a, b, c), true)

/-- The state of a constructed `KSpace` object. -/
structure KSpace where
  k_interpolation : Int
  use_uniform_interpolation : Bool
  points_list : List Point3
  point_labels : List String
  /-- Extra named attributes set through `kwargs`
  (`self.__dict__.update(kwargs)`). -/
  extra : List (String × Nat)
  deriving Repr, Inhabited

/-- Result of running the constructor: the object, the warnings emitted (in
order), and the final state of the caller's `point_labels` list object (the
constructor may extend it in place). -/
structure InitResult where
  self : KSpace
  warnings : List String
  final_point_labels : List String
  deriving Repr, Inhabited

/-- `KSpace.__init__` (source lines 28–105).  `newmpb` is the capability flag
`defaults.newmpb` of the external configuration. -/
def KSpace.init (points_list : List Val) (k_interpolation : Int)
    (use_uniform_interpolation : Bool) (point_labels : List String)
    (newmpb : Bool) (kwargs : List (String × Nat)) : InitResult :=
  let normed := points_list.map normalizeItem
  let three_list := normed.map Prod.fst
  let truncWarnings := (normed.filter Prod.snd).map (fun _ => truncationWarning)
  let pllen := point_labels.length
  let extended :=
    if pllen ≠ 0 ∧ pllen < three_list.length then
      point_labels ++ List.replicate (three_list.length - pllen) ""
    else point_labels
  let storedLabels := extended.take three_list.length
  let fellBack := use_uniform_interpolation && !newmpb
  { self :=
      { k_interpolation := k_interpolation
        use_uniform_interpolation :=
          if fellBack then false else use_uniform_interpolation
        points_list := three_list
        point_labels := storedLabels
        extra := kwargs }
    warnings := truncWarnings ++ (if fellBack then [uniformFallbackWarning] else [])
    final_point_labels := extended }

/-- `KSpace.points` (source lines 142–147): the bare stored point list. -/
def KSpace.points (ks : KSpace) : List Point3 := ks.points_list

/-- `KSpace.count_interpolated` (source lines 138–140), over the integers as
in Python (for an empty point list the factor `len - 1` is negative). -/
def KSpace.count_interpolated (ks : KSpace) : Int :=
  ((ks.points.length : Int) - 1) * (ks.k_interpolation + 1) + 1

/-- `KSpace.has_labels` (source lines 149–152): Python truthiness of
`len(point_labels) and len(points()) == len(point_labels)`. -/
def KSpace.has_labels (ks : KSpace) : Bool :=
  ks.point_labels.length != 0 && ks.points.length == ks.point_labels.length

/-- `KSpace.labels` (source lines 154–164): a copy of `point_labels` when
`has_labels()`, else the empty list. -/
def KSpace.labels (ks : KSpace) : List String :=
  if ks.has_labels then ks.point_labels else []

/-- The concatenated `vector3` lines of `KSpace.__str__` (source lines
107–118).  `fmt` is the host language's string conversion (Python `%s`) of a
component value.  In the labeled branch the Python code indexes
`comments[i]` for each point index `i`; since stored labels always have
length 0 or the point count, this is the same as zipping the two lists. -/
def KSpace.vectors (fmt : Val → String) (ks : KSpace) : String :=
  if ks.point_labels.isEmpty then
    String.join (ks.points.map (fun xyz =>
      "    (vector3 " ++ fmt xyz.1 ++ " " ++ fmt xyz.2.1 ++ " " ++
        fmt xyz.2.2 ++ ")\n"))
  else
    let comments := ks.point_labels.map (fun pl =>
      if pl.isEmpty then pl else "  ;" ++ pl)
    String.join ((ks.points.zip comments).map (fun pc =>
      "    (vector3 " ++ fmt pc.1.1 ++ " " ++ fmt pc.1.2.1 ++ " " ++
        fmt pc.1.2.2 ++ ")" ++ pc.2 ++ "\n"))

/-- `KSpace.__str__` (source lines 107–131).  `interpFn` and `uniformFn` are
the configured `defaults.k_interpolation_function` and
`defaults.k_uniform_interpolation_function` names. -/
def KSpace.toStr (fmt : Val → String) (interpFn uniformFn : String)
    (ks : KSpace) : String :=
  let vectors := ks.vectors fmt
  let interpolFunc :=
    if ks.use_uniform_interpolation then uniformFn else interpFn
  if ks.k_interpolation != 0 then
    "(" ++ interpolFunc ++ " " ++ toString ks.k_interpolation ++
      " (list\n" ++ vectors ++ "))"
  else
    "(list\n" ++ vectors ++ ")"

/-- Lookup of an extra named attribute on the object (attribute access on the
fields set through `kwargs`). -/
def KSpace.getattr (ks : KSpace) (name : String) : Option Nat :=
  (ks.extra.find? (fun kv => kv.1 == name)).map Prod.snd

/-- `KSpaceTriangular.__init__` (source lines 167–182). -/
def KSpaceTriangular (k_interpolation : Int) (use_uniform_interpolation : Bool)
    (newmpb : Bool) : InitResult :=
  KSpace.init
    [ .seq [.num 0, .num 0, .num 0],
      .seq [.num 0, .num (1/2), .num 0],
      .seq [.str "(/ -3)", .str "(/ 3)", .num 0],
      .seq [.num 0, .num 0, .num 0] ]
    k_interpolation use_uniform_interpolation
    ["Gamma", "M", "K", "Gamma"] newmpb []

/-- `KSpaceRectangular.__init__` (source lines 185–200). -/
def KSpaceRectangular (k_interpolation : Int) (use_uniform_interpolation : Bool)
    (newmpb : Bool) : InitResult :=
  KSpace.init
    [ .seq [.num 0, .num 0, .num 0],
      .seq [.num (1/2), .num 0, .num 0],
      .seq [.num (1/2), .num (1/2), .num 0],
      .seq [.num 0, .num 0, .num 0] ]
    k_interpolation use_uniform_interpolation
    ["Gamma", "X", "M", "Gamma"] newmpb []

/-- `numpy.linspace(start, stop, num)` on the values used here, modelled over
exact rationals: `num` evenly spaced samples from `start` to `stop` inclusive
(`num = 1` yields just `start`, `num = 0` the empty list). -/
def linspace (start stop : ℚ) (num : Nat) : List ℚ :=
  match num with
  | 0 => []
  | 1 => [start]
  | m + 2 =>
    (List.range (m + 2)).map (fun i : Nat =>
      start + (stop - start) * (i : ℚ) / (m + 1))

/-- `KSpaceRectangularGrid.__init__` (source lines 203–219).  The grid is the
list comprehension with `y` in the outer loop and `x` in the inner one;
`x_steps` and `y_steps` are passed on as `kwargs`. -/
def KSpaceRectangularGrid (x_steps y_steps : Nat) (newmpb : Bool) : InitResult :=
  let grid := (linspace (-(1/2)) (1/2) y_steps).flatMap (fun y =>
    (linspace (-(1/2)) (1/2) x_steps).map (fun x =>
      Val.seq [.num x, .num y, .num 0]))
  KSpace.init grid 0 false [] newmpb
    [("x_steps", x_steps), ("y_steps", y_steps)]

/-- The per-point output line as the spec describes it: a fixed-indentation
`vector3` literal, with a trailing inline comment appended exactly when the
point's label is non-empty.  (Spec-side definition, for comparison with the
source-side `KSpace.vectors`.) -/
def specLine (fmt : Val → String) (p : Point3) (label : String) : String :=
  "    (vector3 " ++ fmt p.1 ++ " " ++ fmt p.2.1 ++ " " ++ fmt p.2.2 ++ ")" ++
    (if label = "" then "" else "  ;" ++ label) ++ "\n"

/-- A concrete component formatter used for evaluating the renderer on
concrete inputs: symbolic strings verbatim, integers as integers. -/
def fmtTest : Val → String
  | .num q => if q.den = 1 then toString q.num else toString q
  | .str s => s
  | .seq _ => "?"

/-- A concrete 2-point unlabeled path with interpolation count 0 (test object
for rendering). -/
def sampleUnwrapped : KSpace :=
  (KSpace.init [.seq [.num 1, .num 2, .num 3], .seq [.num 4, .num 5, .num 6]]
    0 false [] true []).self

/-- The same 2-point path with interpolation count 5 and the uniform flag
false (test object for the wrapped rendering). -/
def sampleWrapped : KSpace :=
  (KSpace.init [.seq [.num 1, .num 2, .num 3], .seq [.num 4, .num 5, .num 6]]
    5 false [] true []).self

/-- The two warning messages differ. -/
lemma warnings_ne : truncationWarning ≠ uniformFallbackWarning := by
  decide

/-- The source's comment formatting of a label agrees with the spec's
description of it. -/
lemma comment_eq (pl : String) :
    (if pl.isEmpty then pl else "  ;" ++ pl)
      = (if pl = "" then "" else "  ;" ++ pl) := by
  by_cases h : pl = "" <;> simp [h, String.isEmpty_iff]

/-- The concatenated `vector3` lines of the renderer agree with the
spec-described per-point lines. -/
lemma vectors_eq_specLines (fmt : Val → String) (ks : KSpace) :
    ks.vectors fmt
      = String.join (if ks.point_labels.isEmpty then
          ks.points.map (fun p => specLine fmt p "")
        else (ks.points.zip ks.point_labels).map
          (fun pl => specLine fmt pl.1 pl.2)) := by
  unfold KSpace.vectors specLine
  by_cases h : ks.point_labels.isEmpty <;>
    simp only [h, Bool.false_eq_true, ite_true, ite_false]
  · refine congrArg String.join (List.map_congr_left fun xyz _ => ?_)
    simp [String.append_assoc]
  · rw [List.zip_map_right, List.map_map]
    refine congrArg String.join (List.map_congr_left fun pc _ => ?_)
    simp [Function.comp, Prod.map, comment_eq, String.append_assoc]

/-- Claim C1: the constructor normalizes each input item into exactly a
3-component tuple: a string or non-sequence becomes `(item, 0, 0)`, a
length-1 sequence `(item[0], 0, 0)`, a length-2 sequence
`(item[0], item[1], 0)`, a length-3 sequence is stored as-is, and a longer
sequence is truncated to its first 3 elements with a warning; the stored
point list has exactly one 3-tuple per input item, so no raw scalar or short
tuple survives. -/
theorem C1_point_normalization
    (pts : List Val) (k : Int) (uu : Bool) (labs : List String)
    (nm : Bool) (kw : List (String × Nat)) :
    (KSpace.init pts k uu labs nm kw).self.points_list
        = pts.map (fun it => (normalizeItem it).1)
    ∧ (KSpace.init pts k uu labs nm kw).self.points_list.length = pts.length
    ∧ (∀ q : ℚ, normalizeItem (.num q) = ((.num q, .num 0, .num 0), false))
    ∧ (∀ s : String, normalizeItem (.str s) = ((.str s, .num 0, .num 0), false))
    ∧ (∀ a, normalizeItem (.seq [a]) = ((a, .num 0, .num 0), false))
    ∧ (∀ a b, normalizeItem (.seq [a, b]) = ((a, b, .num 0), false))
    ∧ (∀ a b c, normalizeItem (.seq [a, b, c]) = ((a, b, c), false))
    ∧ (∀ a b c d rest,
        normalizeItem (.seq (a :: b :: c :: d :: rest)) = ((a, b, c), true))
    ∧ (KSpace.init pts k uu labs nm kw).warnings.count truncationWarning
        = (pts.filter (fun it => (normalizeItem it).2)).length := by
  refine ⟨?_, ?_, fun q => rfl, fun s => rfl, fun a => rfl, fun a b => rfl,
    fun a b c => rfl, fun a b c d rest => rfl, ?_⟩
  · simp [KSpace.init, List.map_map]
  · simp [KSpace.init]
  · simp only [KSpace.init, List.count_append]
    by_cases hb : uu && !nm <;>
      simp [hb, List.count_cons, warnings_ne, Ne.symm warnings_ne,
        List.map_const', List.count_replicate_self, List.filter_map,
        Function.comp] <;>
    · rw [show ((fun _ : Point3 × Bool => truncationWarning) ∘ normalizeItem)
            = (fun _ : Val => truncationWarning) from rfl,
        List.map_const', List.count_replicate_self]
      rfl

/-- Claim C4: `count_interpolated` returns
`(len(points) - 1) * (k_interpolation + 1) + 1`; in particular a 4-point
path with interpolation count 3 yields 13. -/
theorem C4_count_interpolated (ks : KSpace) (h : 1 ≤ ks.points.length) :
    ks.count_interpolated
        = ((ks.points.length : Int) - 1) * (ks.k_interpolation + 1) + 1
    ∧ (KSpace.init [.num 0, .num 1, .num 2, .num 3] 3 false [] true
        []).self.count_interpolated = 13 := by
  exact ⟨rfl, rfl⟩

/-- Witness for C4 at the 4-point triangular preset with interpolation
count 3. -/
theorem C4_count_interpolated_witness :
    1 ≤ (KSpaceTriangular 3 false true).self.points.length
    ∧ ((KSpaceTriangular 3 false true).self.count_interpolated
        = (((KSpaceTriangular 3 false true).self.points.length : Int) - 1) *
            ((KSpaceTriangular 3 false true).self.k_interpolation + 1) + 1
      ∧ (KSpace.init [.num 0, .num 1, .num 2, .num 3] 3 false [] true
          []).self.count_interpolated = 13) :=
  ⟨by decide,
    C4_count_interpolated (KSpaceTriangular 3 false true).self (by decide)⟩

/-- Claim C5: a uniform-interpolation request is downgraded to false with a
warning exactly when the capability flag `newmpb` is unavailable; when the
flag is available the requested value is kept.  (The constructor is a total
function, so the downgrade never raises an error.) -/
theorem C5_uniform_fallback
    (pts : List Val) (k : Int) (labs : List String) (kw : List (String × Nat))
    (useUniform newmpb : Bool) :
    (useUniform = true → newmpb = false →
      (KSpace.init pts k useUniform labs newmpb
          kw).self.use_uniform_interpolation = false
      ∧ uniformFallbackWarning ∈ (KSpace.init pts k useUniform labs newmpb
          kw).warnings)
    ∧ (newmpb = true →
      (KSpace.init pts k useUniform labs newmpb
          kw).self.use_uniform_interpolation = useUniform)
    ∧ (uniformFallbackWarning ∈ (KSpace.init pts k useUniform labs newmpb
          kw).warnings ↔ (useUniform = true ∧ newmpb = false)) := by
  cases useUniform <;> cases newmpb <;>
    simp [KSpace.init, warnings_ne, Ne.symm warnings_ne, List.mem_map]

/-- Witness for C5: requesting uniform interpolation with the capability
flag unavailable stores false and emits the fallback warning. -/
theorem C5_uniform_fallback_witness :
    (KSpace.init [] 0 true [] false []).self.use_uniform_interpolation = false
    ∧ uniformFallbackWarning ∈ (KSpace.init [] 0 true [] false []).warnings :=
  (C5_uniform_fallback [] 0 [] [] true false).1 rfl rfl

/-- Claim C6: `has_labels()` is true iff the stored label list is non-empty
and as long as the point list; it is false whenever the two lengths differ;
`labels()` is the label list when `has_labels()` and empty otherwise. -/
theorem C6_has_labels (ks : KSpace) :
    (ks.has_labels = true ↔
      ks.point_labels ≠ [] ∧ ks.points.length = ks.point_labels.length)
    ∧ (ks.point_labels.length ≠ ks.points.length → ks.has_labels = false)
    ∧ ks.labels = (if ks.has_labels then ks.point_labels else []) := by
  refine ⟨?_, ?_, rfl⟩
  · simp [KSpace.has_labels, List.length_eq_zero]
  · intro h
    apply Bool.eq_false_iff.mpr
    intro hb
    rw [KSpace.has_labels, Bool.and_eq_true, bne_iff_ne, beq_iff_eq] at hb
    exact h hb.2.symm

/-- Witness for C6 at an object whose label count (1) differs from its point
count (0): `has_labels()` is false even though labels were supplied. -/
theorem C6_has_labels_witness :
    ((⟨0, false, [], ["a"], []⟩ : KSpace).point_labels.length
      ≠ (⟨0, false, [], ["a"], []⟩ : KSpace).points.length)
    ∧ (⟨0, false, [], ["a"], []⟩ : KSpace).has_labels = false :=
  ⟨by decide, (C6_has_labels ⟨0, false, [], ["a"], []⟩).2.1 (by decide)⟩

/-- Claim C7: the triangular preset stores exactly the four points
`(0,0,0), (0,1/2,0), ("(/ -3)","(/ 3)",0), (0,0,0)` with labels
`Gamma, M, K, Gamma`, for any interpolation count and flags. -/
theorem C7_triangular (k : Int) (uu nm : Bool) :
    (KSpaceTriangular k uu nm).self.points =
      [ (.num 0, .num 0, .num 0), (.num 0, .num (1/2), .num 0),
        (.str "(/ -3)", .str "(/ 3)", .num 0), (.num 0, .num 0, .num 0) ]
    ∧ (KSpaceTriangular k uu nm).self.labels = ["Gamma", "M", "K", "Gamma"] :=
  ⟨rfl, rfl⟩

/-- Claim C2: with interpolation count zero the renderer emits the unwrapped
list literal: `(list\n` followed by one spec-described `vector3` line per
point (label comment only for non-empty labels) and a closing `)`, with no
wrapping function call. -/
theorem C2_render_unwrapped (fmt : Val → String) (interpFn uniformFn : String)
    (ks : KSpace) (h : ks.k_interpolation = 0) :
    ks.toStr fmt interpFn uniformFn
      = "(list\n" ++
          String.join (if ks.point_labels.isEmpty then
              ks.points.map (fun p => specLine fmt p "")
            else (ks.points.zip ks.point_labels).map
              (fun pl => specLine fmt pl.1 pl.2)) ++ ")" := by
  rw [KSpace.toStr, ← vectors_eq_specLines]
  simp [h]

/-- Witness for C2: the concrete 2-point unlabeled path with interpolation
count 0 renders exactly as the claimed literal. -/
theorem C2_render_unwrapped_witness :
    sampleUnwrapped.k_interpolation = 0
    ∧ sampleUnwrapped.toStr fmtTest "interpolate" "kinterpolate_uniform"
        = "(list\n    (vector3 1 2 3)\n    (vector3 4 5 6)\n)" := by
  refine ⟨rfl, ?_⟩
  rw [C2_render_unwrapped fmtTest "interpolate" "kinterpolate_uniform"
    sampleUnwrapped rfl]
  rfl

/-- Claim C3: with nonzero interpolation count the renderer wraps the list
literal in `(<function-name> <count> (list\n<lines>))`, where the function
name is the configured uniform-interpolation name when the stored flag is
true and the configured simple-interpolation name when it is false. -/
theorem C3_render_wrapped (fmt : Val → String) (interpFn uniformFn : String)
    (ks : KSpace) (h : ks.k_interpolation ≠ 0) :
    ks.toStr fmt interpFn uniformFn
      = "(" ++ (if ks.use_uniform_interpolation then uniformFn else interpFn)
          ++ " " ++ toString ks.k_interpolation ++ " (list\n" ++
          String.join (if ks.point_labels.isEmpty then
              ks.points.map (fun p => specLine fmt p "")
            else (ks.points.zip ks.point_labels).map
              (fun pl => specLine fmt pl.1 pl.2)) ++ "))" := by
  rw [KSpace.toStr, ← vectors_eq_specLines]
  simp [h, String.append_assoc]

/-- Witness for C3: the concrete 2-point path with interpolation count 5 and
uniform flag false renders wrapped in the simple-interpolation function. -/
theorem C3_render_wrapped_witness :
    sampleWrapped.k_interpolation ≠ 0
    ∧ sampleWrapped.toStr fmtTest "interpolate" "kinterpolate_uniform"
        = "(interpolate 5 (list\n    (vector3 1 2 3)\n    (vector3 4 5 6)\n))"
    := by
  refine ⟨by decide, ?_⟩
  rw [C3_render_wrapped fmtTest "interpolate" "kinterpolate_uniform"
    sampleWrapped (by decide)]
  rfl

/-- The stored label list of a constructed object: the (possibly padded)
supplied labels, truncated to the point count. -/
lemma init_point_labels (pts : List Val) (k : Int) (uu : Bool)
    (labs : List String) (nm : Bool) (kw : List (String × Nat)) :
    (KSpace.init pts k uu labs nm kw).self.point_labels
      = (if labs.length ≠ 0 ∧ labs.length < pts.length then
          labs ++ List.replicate (pts.length - labs.length) ""
        else labs).take pts.length := by
  simp [KSpace.init]

/-- A constructed object stores one point per input item. -/
lemma init_points_length (pts : List Val) (k : Int) (uu : Bool)
    (labs : List String) (nm : Bool) (kw : List (String × Nat)) :
    (KSpace.init pts k uu labs nm kw).self.points.length = pts.length := by
  simp [KSpace.init, KSpace.points]

/-- Claim C9: construction establishes the invariant that the stored label
list has length 0 or exactly the point count (a non-empty shorter supplied
list is padded with empty strings, a longer one truncated), so
`has_labels()` is equivalent to the stored label list being non-empty. -/
theorem C9_label_invariant (pts : List Val) (k : Int) (uu : Bool)
    (labs : List String) (nm : Bool) (kw : List (String × Nat)) :
    ((KSpace.init pts k uu labs nm kw).self.point_labels.length = 0
      ∨ (KSpace.init pts k uu labs nm kw).self.point_labels.length
          = (KSpace.init pts k uu labs nm kw).self.points.length)
    ∧ (labs ≠ [] → labs.length < pts.length →
        (KSpace.init pts k uu labs nm kw).self.point_labels
          = labs ++ List.replicate (pts.length - labs.length) "")
    ∧ (pts.length ≤ labs.length →
        (KSpace.init pts k uu labs nm kw).self.point_labels
          = labs.take pts.length)
    ∧ ((KSpace.init pts k uu labs nm kw).self.has_labels = true
        ↔ (KSpace.init pts k uu labs nm kw).self.point_labels ≠ []) := by
  have hpl := init_point_labels pts k uu labs nm kw
  have hlen := init_points_length pts k uu labs nm kw
  have hA : (KSpace.init pts k uu labs nm kw).self.point_labels.length = 0
      ∨ (KSpace.init pts k uu labs nm kw).self.point_labels.length
          = pts.length := by
    rw [hpl]
    split_ifs with hc
    · rw [List.length_take, List.length_append, List.length_replicate]
      omega
    · rw [List.length_take]
      omega
  refine ⟨by rw [hlen]; exact hA, fun hne hlt => ?_, fun hge => ?_, ?_⟩
  · rw [hpl, if_pos ⟨by simpa using hne, hlt⟩]
    apply List.take_of_length_le
    simp [List.length_append, List.length_replicate]
    omega
  · rw [hpl, if_neg (by omega)]
  · rw [KSpace.has_labels, Bool.and_eq_true, bne_iff_ne, beq_iff_eq]
    constructor
    · rintro ⟨h1, _⟩
      intro he
      exact h1 (by simp [he])
    · intro hne
      have hL : (KSpace.init pts k uu labs nm kw).self.point_labels.length
          ≠ 0 := by simpa [List.length_eq_zero] using hne
      rcases hA with hA0 | hAn
      · exact absurd hA0 hL
      · exact ⟨hL, by rw [hlen, hAn]⟩

/-- Witness for C9 at a 2-point path with a single supplied label, which is
padded with one empty string. -/
theorem C9_label_invariant_witness :
    (["a"] : List String) ≠ []
    ∧ (["a"] : List String).length < ([Val.num 1, Val.num 2] : List Val).length
    ∧ (KSpace.init [Val.num 1, Val.num 2] 0 false ["a"] true
        []).self.point_labels
      = ["a"] ++ List.replicate
          (([Val.num 1, Val.num 2] : List Val).length
            - (["a"] : List String).length) "" :=
  ⟨by decide, by decide,
    (C9_label_invariant [Val.num 1, Val.num 2] 0 false ["a"] true []).2.1
      (by decide) (by decide)⟩

/-- Claim C10: the caller's `point_labels` list object is extended in place
with empty strings exactly when it is non-empty and strictly shorter than
the point list; otherwise it is left unmodified. -/
theorem C10_caller_label_mutation (pts : List Val) (k : Int) (uu : Bool)
    (labs : List String) (nm : Bool) (kw : List (String × Nat)) :
    (labs.length ≠ 0 → labs.length < pts.length →
      (KSpace.init pts k uu labs nm kw).final_point_labels
        = labs ++ List.replicate (pts.length - labs.length) "")
    ∧ (labs.length = 0 →
      (KSpace.init pts k uu labs nm kw).final_point_labels = labs)
    ∧ (pts.length ≤ labs.length →
      (KSpace.init pts k uu labs nm kw).final_point_labels = labs) := by
  have hf : (KSpace.init pts k uu labs nm kw).final_point_labels
      = if labs.length ≠ 0 ∧ labs.length < pts.length then
          labs ++ List.replicate (pts.length - labs.length) ""
        else labs := by
    simp [KSpace.init]
  refine ⟨fun h1 h2 => ?_, fun h0 => ?_, fun hge => ?_⟩
  · rw [hf, if_pos ⟨h1, h2⟩]
  · rw [hf, if_neg (by omega)]
  · rw [hf, if_neg (by omega)]

/-- Witness for C10 at a 1-point path with two supplied labels, which are
left unmodified. -/
theorem C10_caller_label_mutation_witness :
    ([Val.num 1] : List Val).length ≤ (["a", "b"] : List String).length
    ∧ (KSpace.init [Val.num 1] 0 false ["a", "b"] true []).final_point_labels
        = ["a", "b"] :=
  ⟨by decide,
    (C10_caller_label_mutation [Val.num 1] 0 false ["a", "b"] true []).2.2
      (by decide)⟩

/-- The at-least-2-sample arm of `linspace`, as a map over `List.range`. -/
lemma linspace_eq_map (a b : ℚ) (m : Nat) :
    linspace a b (m + 2)
      = (List.range (m + 2)).map (fun j : Nat =>
          a + (b - a) * (j : ℚ) / (m + 1)) := rfl

/-- `linspace` produces exactly `num` samples. -/
lemma linspace_length (a b : ℚ) (num : Nat) : (linspace a b num).length = num := by
  match num with
  | 0 => rfl
  | 1 => rfl
  | m + 2 => rw [linspace_eq_map, List.length_map, List.length_range]

/-- Sample `i` of an at-least-2-sample `linspace`. -/
lemma linspace_getElem (a b : ℚ) (m i : Nat) (hi : i < m + 2) :
    (linspace a b (m + 2))[i]? = some (a + (b - a) * i / (m + 1)) := by
  rw [linspace_eq_map, List.getElem?_map, List.getElem?_range hi,
    Option.map_some']

/-- Length of a row-major rectangular comprehension. -/
lemma length_flatMap_map {α β γ : Type} (ys : List α) (xs : List β)
    (g : α → β → γ) :
    (ys.flatMap (fun y => xs.map (g y))).length = ys.length * xs.length := by
  induction ys with
  | nil => simp
  | cons y ys ih =>
    simp only [List.flatMap_cons, List.length_append, List.length_map, ih,
      List.length_cons]
    ring

/-- Claim C8: the rectangular-grid preset stores `x_steps * y_steps` points,
each with `k_z = 0`, with `y` varying slowest (for each `y` sample all `x`
samples in order), the samples of either axis evenly spaced from `-1/2` to
`1/2` inclusive; interpolation is 0 and `x_steps` / `y_steps` are
retrievable as extra named attributes; in particular the 3×2 grid is the six
claimed points. -/
theorem C8_rectangular_grid (x_steps y_steps : Nat) (nm : Bool) :
    (KSpaceRectangularGrid x_steps y_steps nm).self.points
      = (linspace (-(1/2)) (1/2) y_steps).flatMap (fun y =>
          (linspace (-(1/2)) (1/2) x_steps).map (fun x =>
            ((Val.num x, Val.num y, Val.num 0) : Point3)))
    ∧ (KSpaceRectangularGrid x_steps y_steps nm).self.points.length
        = x_steps * y_steps
    ∧ (∀ p ∈ (KSpaceRectangularGrid x_steps y_steps nm).self.points,
        p.2.2 = Val.num 0)
    ∧ (KSpaceRectangularGrid x_steps y_steps nm).self.k_interpolation = 0
    ∧ (KSpaceRectangularGrid x_steps y_steps nm).self.getattr "x_steps"
        = some x_steps
    ∧ (KSpaceRectangularGrid x_steps y_steps nm).self.getattr "y_steps"
        = some y_steps
    ∧ (∀ m i, x_steps = m + 2 → i < x_steps →
        (linspace (-(1/2)) (1/2) x_steps)[i]?
          = some (-(1/2) + (i : ℚ) / (m + 1)))
    ∧ (∀ m j, y_steps = m + 2 → j < y_steps →
        (linspace (-(1/2)) (1/2) y_steps)[j]?
          = some (-(1/2) + (j : ℚ) / (m + 1)))
    ∧ (KSpaceRectangularGrid 3 2 nm).self.points
      = [ (.num (-(1/2)), .num (-(1/2)), .num 0),
          (.num 0, .num (-(1/2)), .num 0),
          (.num (1/2), .num (-(1/2)), .num 0),
          (.num (-(1/2)), .num (1/2), .num 0),
          (.num 0, .num (1/2), .num 0),
          (.num (1/2), .num (1/2), .num 0) ] := by
  have hpts : ∀ n m : Nat, (KSpaceRectangularGrid n m nm).self.points
      = (linspace (-(1/2)) (1/2) m).flatMap (fun y =>
          (linspace (-(1/2)) (1/2) n).map (fun x =>
            ((Val.num x, Val.num y, Val.num 0) : Point3))) := by
    intro n m
    simp only [KSpaceRectangularGrid, KSpace.init, KSpace.points,
      List.map_flatMap, List.map_map]
    rfl
  have hform : ∀ (n : Nat), ∀ m i, n = m + 2 → i < n →
      (linspace (-(1/2)) (1/2) n)[i]?
        = some (-(1/2) + (i : ℚ) / (m + 1)) := by
    intro n m i hm hi
    subst hm
    rw [linspace_getElem (-(1/2)) (1/2) m i hi]
    norm_num
  refine ⟨hpts x_steps y_steps, ?_, ?_, rfl, rfl, rfl,
    hform x_steps, hform y_steps, ?_⟩
  · rw [hpts x_steps y_steps]
    calc ((linspace (-(1/2)) (1/2) y_steps).flatMap (fun y =>
          (linspace (-(1/2)) (1/2) x_steps).map (fun x =>
            ((Val.num x, Val.num y, Val.num 0) : Point3)))).length
        = (linspace (-(1/2)) (1/2) y_steps).length *
            (linspace (-(1/2)) (1/2) x_steps).length :=
          length_flatMap_map _ _ (fun y x => (Val.num x, Val.num y, Val.num 0))
      _ = x_steps * y_steps := by
          rw [linspace_length, linspace_length, Nat.mul_comm]
  · rw [hpts x_steps y_steps]
    intro p hp
    simp only [List.mem_flatMap, List.mem_map] at hp
    obtain ⟨y, -, x, -, rfl⟩ := hp
    rfl
  · have h2 : linspace (-(1/2)) (1/2) 2 = [-(1/2), 1/2] := by
      rw [show (2 : Nat) = 0 + 2 from rfl, linspace_eq_map]
      norm_num [List.range_succ]
    have h3 : linspace (-(1/2)) (1/2) 3 = [-(1/2), 0, 1/2] := by
      rw [show (3 : Nat) = 1 + 2 from rfl, linspace_eq_map]
      norm_num [List.range_succ]
    rw [hpts 3 2, h2, h3]
    rfl

/-- Witness for C8 at a 4×3 grid: the second x-sample of 4 evenly spaced
samples is `-1/2 + 1/3`. -/
theorem C8_rectangular_grid_witness :
    (4 : Nat) = 2 + 2 ∧ (1 : Nat) < 4
    ∧ (linspace (-(1/2)) (1/2) 4)[1]?
        = some (-(1/2) + ((1 : Nat) : ℚ) / (((2 : Nat) : ℚ) + 1)) :=
  ⟨rfl, by decide,
    (C8_rectangular_grid 4 3 true).2.2.2.2.2.2.1 2 1 rfl (by decide)⟩

end PyMPB
